import Mathlib

/-!
Verification development for the SoilSafe backend (`backend/app.py`).

The pipeline under study resolves a coordinate (or manual input) into a
feature row, classifies it, attributes the prediction to features through
a fallback cascade, adjusts the attribution for regional context, and
post-processes the predicted risk label.  Floating-point values are
modelled as rationals (`ℚ`); Python dicts holding feature weights are
modelled as insertion-ordered association lists.
-/

namespace SoilSafe

/-- An attribution map: Python dict from feature name to weight,
modelled as an insertion-ordered association list. -/
abbrev AttrMap := List (String × ℚ)

/-- Sum of the weights of an attribution map (`sum(d.values())`). -/
def mapSum (m : AttrMap) : ℚ := (m.map Prod.snd).sum

/-- Python `d.get(k, default)`. -/
def getD (m : AttrMap) (k : String) (d : ℚ) : ℚ :=
  match m with
  | [] => d
  | p :: t => if p.1 = k then p.2 else getD t k d

/-- Python `d[k] = v`: replace the value at an existing key in place,
otherwise append the new binding (dicts preserve insertion order). -/
def setKey (m : AttrMap) (k : String) (v : ℚ) : AttrMap :=
  match m with
  | [] => [(k, v)]
  | p :: t => if p.1 = k then (k, v) :: t else p :: setKey t k v

@[simp] lemma mapSum_nil : mapSum ([] : AttrMap) = 0 := rfl

@[simp] lemma mapSum_cons (p : String × ℚ) (m : AttrMap) :
    mapSum (p :: m) = p.2 + mapSum m := by
  simp [mapSum]

lemma setKey_sum (m : AttrMap) (k : String) (v : ℚ) :
    mapSum (setKey m k v) = mapSum m - getD m k 0 + v := by
  induction m with
  | nil => simp [setKey, getD]
  | cons p t ih =>
    by_cases h : p.1 = k
    · simp [setKey, getD, h]
      ring
    · simp [setKey, getD, h, ih]
      ring

lemma setKey_nonneg (m : AttrMap) (k : String) (v : ℚ)
    (hm : ∀ p ∈ m, 0 ≤ p.2) (hv : 0 ≤ v) :
    ∀ p ∈ setKey m k v, 0 ≤ p.2 := by
  induction m with
  | nil =>
    intro p hp
    simp [setKey] at hp
    simp [hp, hv]
  | cons q t ih =>
    intro p hp
    by_cases h : q.1 = k
    · simp [setKey, h] at hp
      rcases hp with hp | hp
      · simp [hp, hv]
      · exact hm p (List.mem_cons_of_mem q hp)
    · simp [setKey, h] at hp
      rcases hp with hp | hp
      · exact hm p (by simp [hp])
      · exact ih (fun r hr => hm r (List.mem_cons_of_mem q hr)) p hp

lemma getD_nonneg (m : AttrMap) (k : String) (d : ℚ)
    (hm : ∀ p ∈ m, 0 ≤ p.2) (hd : 0 ≤ d) : 0 ≤ getD m k d := by
  induction m with
  | nil => simpa [getD] using hd
  | cons p t ih =>
    by_cases h : p.1 = k
    · simpa [getD, h] using hm p (by simp)
    · simp [getD, h]
      exact ih fun r hr => hm r (List.mem_cons_of_mem p hr)

/-! ### Collapse of expanded-column importances (`_collapse_feature_importances`)

`backend/app.py` lines 22-63.  Transformed column names such as
`cat__soil_type_clay` are collapsed back to the five canonical feature
names by splitting on the double underscore, dropping the categorical
value suffix, and applying a small alias table; the collapsed weights
are summed per canonical name and then normalized by
`sum(collapsed.values()) or 1.0`.  String manipulation is modelled on
`List Char` so that it is fully computable. -/

/-- Python `s.split('__')` (split on non-overlapping double underscores,
left to right), on character lists. -/
def splitDunder : List Char → List (List Char)
  | [] => [[]]
  | '_' :: '_' :: rest => [] :: splitDunder rest
  | c :: rest =>
    let r := splitDunder rest
    (c :: r.headD []) :: r.tail

/-- Python `s.split('_')` on character lists. -/
def splitUnder : List Char → List (List Char)
  | [] => [[]]
  | c :: rest =>
    let r := splitUnder rest
    if c = '_' then [] :: r
    else (c :: r.headD []) :: r.tail

/-- Python `'_'.join(parts)` on character lists. -/
def joinUnder : List (List Char) → List Char
  | [] => []
  | [x] => x
  | x :: y :: xs => x ++ '_' :: joinUnder (y :: xs)

/-- The `feature_mapping` alias table of `_collapse_feature_importances`:
maps common patterns to canonical feature names, all other names pass
through unchanged. -/
def feature_mapping (s : String) : String :=
  if s = "soil_type" then "soil_type"
  else if s = "elevation_category" then "elevation_category"
  else if s = "flood_frequency" then "flood_frequency"
  else if s = "rainfall_intensity" then "rainfall_intensity"
  else if s = "distance_from_river" then "distance_from_river"
  else if s = "rainfall" then "rainfall_intensity"
  else if s = "flood" then "flood_frequency"
  else if s = "elevation" then "elevation_category"
  else if s = "distance" then "distance_from_river"
  else s

/-- Extraction of the canonical feature name from a transformed column
name: if the name contains `__`, take the part after the first `__`;
if the prefix was `cat` and that part contains `_`, drop its last
underscore-separated segment; finally apply the alias table. -/
def canonical_of (feat_name : String) : String :=
  let cs := feat_name.toList
  let parts := splitDunder cs
  let original_feat :=
    if 2 ≤ parts.length then
      let original := (parts.drop 1).headD []
      if parts.headD [] = ['c', 'a', 't'] ∧ original.contains '_' then
        joinUnder (splitUnder original).dropLast
      else original
    else cs
  feature_mapping (String.mk original_feat)

/-- One step of the collapse loop: add the column's importance onto the
running total of its canonical feature (`collapsed.get(c, 0.0) + imp`). -/
def collapse_step (acc : AttrMap) (p : String × ℚ) : AttrMap :=
  let c := canonical_of p.1
  setKey acc c (getD acc c 0 + p.2)

/-- The normalization idiom `total = sum(d.values()) or 1.0;
{k: v/total}` shared by all attribution stages. -/
def normalize_py (m : AttrMap) : AttrMap :=
  let total := mapSum m
  let total := if total = 0 then 1 else total
  m.map fun p => (p.1, p.2 / total)

/-- `_collapse_feature_importances` (`backend/app.py` lines 22-63). -/
def _collapse_feature_importances (m : AttrMap) : AttrMap :=
  normalize_py (m.foldl collapse_step [])

lemma collapse_fold_sum (m acc : AttrMap) :
    mapSum (m.foldl collapse_step acc) = mapSum acc + mapSum m := by
  induction m generalizing acc with
  | nil => simp
  | cons p t ih =>
    rw [List.foldl_cons, ih]
    have hstep : mapSum (collapse_step acc p) = mapSum acc + p.2 := by
      rw [collapse_step, setKey_sum]
      ring
    rw [hstep]
    simp
    ring

lemma collapse_fold_nonneg (m acc : AttrMap)
    (hacc : ∀ p ∈ acc, 0 ≤ p.2) (hm : ∀ p ∈ m, 0 ≤ p.2) :
    ∀ p ∈ m.foldl collapse_step acc, 0 ≤ p.2 := by
  induction m generalizing acc with
  | nil => simpa using hacc
  | cons q t ih =>
    rw [List.foldl_cons]
    have hq : 0 ≤ q.2 := hm q (by simp)
    have hstep : ∀ p ∈ collapse_step acc q, 0 ≤ p.2 := by
      apply setKey_nonneg _ _ _ hacc
      have := getD_nonneg acc (canonical_of q.1) 0 hacc le_rfl
      linarith
    exact ih _ hstep fun r hr => hm r (List.mem_cons_of_mem q hr)

lemma mapSum_map_div (m : AttrMap) (t : ℚ) :
    mapSum (m.map fun p => (p.1, p.2 / t)) = mapSum m / t := by
  induction m with
  | nil => simp
  | cons p tl ih => simp [ih, add_div]

lemma normalize_py_sum (m : AttrMap) (h : mapSum m ≠ 0) :
    mapSum (normalize_py m) = 1 := by
  rw [normalize_py]
  simp only [if_neg h]
  rw [mapSum_map_div, div_self h]

lemma normalize_py_nonneg (m : AttrMap) (hm : ∀ p ∈ m, 0 ≤ p.2)
    (h : 0 ≤ mapSum m) : ∀ p ∈ normalize_py m, 0 ≤ p.2 := by
  intro p hp
  rw [normalize_py] at hp
  simp only [List.mem_map] at hp
  obtain ⟨q, hq, rfl⟩ := hp
  by_cases h0 : mapSum m = 0
  · simpa [h0] using hm q hq
  · simpa [h0] using div_nonneg (hm q hq) h

/-! ### Feature rows and region rules -/

/-- The model-ready feature row built by `predict_v1`
(`backend/app.py` lines 620-627 and 634-640).  Field order follows the
`row` dict of the coordinate path; the manual path leaves
`rainfall_category` absent, modelled as `none`. -/
structure Row where
  soil_type : String
  flood_frequency : ℚ
  rainfall_intensity : ℚ
  elevation_category : String
  distance_from_river : ℚ
  rainfall_category : Option String
deriving DecidableEq

/-- A region rule record from `data/region_rules.json`, as described by
the RegionRule data model (a named bounding box with nominal
environmental values, all fields present). -/
structure RegionRule where
  name : String
  min_lat : ℚ
  max_lat : ℚ
  min_lon : ℚ
  max_lon : ℚ
  soil_type : String
  rainfall_intensity : ℚ
  flood_frequency : ℚ
  elevation_category : String
  distance_from_river : ℚ
deriving DecidableEq

/-! ### Region-adjusted importances (`_compute_region_adjusted_importances`)

`backend/app.py` lines 345-384.  The six `float(...)` conversions of the
row and rule values all happen before the first mutation of `adj`, so a
conversion failure leaves the copied input map untouched; the
`try/except` then returns it unchanged.  The conditional scalings use
`adj.get(key, default)` — a missing key is given a default weight, it is
never a failure. -/

/-- Scaling of the `rainfall_intensity` weight (app.py lines 365-366). -/
def adj_rain (rainfall_ratio : ℚ) (adj : AttrMap) : AttrMap :=
  if rainfall_ratio > 1.5 ∨ rainfall_ratio < 0.5 then
    setKey adj "rainfall_intensity" (min (getD adj "rainfall_intensity" 0.2 * 1.4) 0.4)
  else adj

/-- Scaling of the `flood_frequency` weight (app.py lines 367-370). -/
def adj_flood (flood_ratio : ℚ) (adj : AttrMap) : AttrMap :=
  if flood_ratio > 1.5 then
    setKey adj "flood_frequency" (min (getD adj "flood_frequency" 0.15 * 1.3) 0.35)
  else if flood_ratio > 0.8 then
    setKey adj "flood_frequency" (max (getD adj "flood_frequency" 0.15 * 0.8) 0.05)
  else adj

/-- Scaling of the `distance_from_river` weight (app.py lines 371-374). -/
def adj_dist (dist dist_ratio : ℚ) (adj : AttrMap) : AttrMap :=
  if dist < 1 then
    setKey adj "distance_from_river" (min (getD adj "distance_from_river" 0.18 * 1.5) 0.4)
  else if dist_ratio < 0.3 then
    setKey adj "distance_from_river" (min (getD adj "distance_from_river" 0.18 * 1.2) 0.35)
  else adj

/-- Scaling of the `elevation_category` weight (app.py lines 375-376). -/
def adj_elev (elev_diff : Bool) (adj : AttrMap) : AttrMap :=
  if elev_diff then
    setKey adj "elevation_category" (min (getD adj "elevation_category" 0.16 * 1.3) 0.35)
  else adj

/-- Scaling of the `soil_type` weight (app.py lines 377-378). -/
def adj_soil (soil_diff : Bool) (adj : AttrMap) : AttrMap :=
  if soil_diff then
    setKey adj "soil_type" (min (getD adj "soil_type" 0.25 * 1.2) 0.4)
  else adj

/-- The adjusted map before the final normalization: ratios of observed
to nominal values (with the floors `max(rain_norm, 1.0)`,
`max(flood_norm, 1.0)`, `max(dist_norm, 0.1)`) drive the five
conditional scalings, applied in source order. -/
def region_adjust_raw (base : AttrMap)
    (rainfall rain_norm flood flood_norm dist dist_norm : ℚ)
    (elev_diff soil_diff : Bool) : AttrMap :=
  let rainfall_ratio := rainfall / max rain_norm 1
  let flood_ratio := flood / max flood_norm 1
  let dist_ratio := dist / max dist_norm 0.1
  adj_soil soil_diff
    (adj_elev elev_diff
      (adj_dist dist dist_ratio
        (adj_flood flood_ratio
          (adj_rain rainfall_ratio base))))

/-- Scalings followed by the guarded normalization
`if total > 0: adj = {k: v/total}` (app.py lines 379-381). -/
def region_adjust_core (base : AttrMap)
    (rainfall rain_norm flood flood_norm dist dist_norm : ℚ)
    (elev_diff soil_diff : Bool) : AttrMap :=
  let adj := region_adjust_raw base rainfall rain_norm flood flood_norm
    dist dist_norm elev_diff soil_diff
  let total := mapSum adj
  if total > 0 then adj.map fun p => (p.1, p.2 / total) else adj

/-- `_compute_region_adjusted_importances` (app.py lines 345-384) on the
pipeline's own row/rule types, whose numeric fields are always floats
(so the `float(...)` conversions cannot fail).  `region_rule` falsy
(i.e. `None`) returns the input map unchanged. -/
def _compute_region_adjusted_importances (base : AttrMap) (row : Row)
    (rule : Option RegionRule) : AttrMap :=
  match rule with
  | none => base
  | some r =>
    region_adjust_core base
      row.rainfall_intensity r.rainfall_intensity
      row.flood_frequency r.flood_frequency
      row.distance_from_river r.distance_from_river
      (decide (row.elevation_category ≠ r.elevation_category))
      (decide (row.soil_type ≠ r.soil_type))

/-- The raw (pre-normalization) adjusted map for a row/rule pair. -/
def region_adjust_raw_of (base : AttrMap) (row : Row) (r : RegionRule) : AttrMap :=
  region_adjust_raw base
    row.rainfall_intensity r.rainfall_intensity
    row.flood_frequency r.flood_frequency
    row.distance_from_river r.distance_from_river
    (decide (row.elevation_category ≠ r.elevation_category))
    (decide (row.soil_type ≠ r.soil_type))

/-- A Python value as stored in a raw row/rule dict: a float, or a
non-numeric string on which `float(...)` raises. -/
inductive PyVal where
  | num (q : ℚ)
  | str (s : String)
deriving DecidableEq

/-- Python `float(v)`: succeeds on numbers, raises (here: `none`) on a
non-numeric string. -/
def pyFloat : PyVal → Option ℚ
  | .num q => some q
  | .str _ => none

/-- A raw row dict: any key may be absent. -/
structure RawRow where
  soil_type : Option PyVal
  flood_frequency : Option PyVal
  rainfall_intensity : Option PyVal
  elevation_category : Option PyVal
  distance_from_river : Option PyVal
deriving DecidableEq

/-- A raw region-rule dict: any key may be absent. -/
structure RawRule where
  soil_type : Option PyVal
  rainfall_intensity : Option PyVal
  flood_frequency : Option PyVal
  elevation_category : Option PyVal
  distance_from_river : Option PyVal
deriving DecidableEq

/-- All six conversions succeed, or the whole group fails. -/
def conv6 (a b c d e f : Option ℚ) : Option (ℚ × ℚ × ℚ × ℚ × ℚ × ℚ) :=
  match a, b, c, d, e, f with
  | some a, some b, some c, some d, some e, some f => some (a, b, c, d, e, f)
  | _, _, _, _, _, _ => none

/-- `_compute_region_adjusted_importances` over raw dicts, making the
`try/except` visible: the six `float(row.get(...))` /
`float(rule.get(...))` conversions (with the source's defaults
0.0 / 50.0 / 1.0 / 1.0 / 2.0 / 2.0) all precede the first mutation of
`adj`, so if any of them raises, the except branch returns the untouched
copy of the input map. -/
def _compute_region_adjusted_importances_checked (base : AttrMap)
    (row : RawRow) (rule : Option RawRule) : AttrMap :=
  match rule with
  | none => base
  | some r =>
    match conv6
        (pyFloat (row.rainfall_intensity.getD (.num 0)))
        (pyFloat (r.rainfall_intensity.getD (.num 50)))
        (pyFloat (row.flood_frequency.getD (.num 1)))
        (pyFloat (r.flood_frequency.getD (.num 1)))
        (pyFloat (row.distance_from_river.getD (.num 2)))
        (pyFloat (r.distance_from_river.getD (.num 2))) with
    | some (rainfall, rain_norm, flood, flood_norm, dist, dist_norm) =>
      region_adjust_core base rainfall rain_norm flood flood_norm dist dist_norm
        (decide (row.elevation_category.getD (.str "mid") ≠
          r.elevation_category.getD (.str "mid")))
        (decide (row.soil_type.getD (.str "silt") ≠
          r.soil_type.getD (.str "silt")))
    | none => base

lemma adj_rain_nonneg (r : ℚ) (adj : AttrMap) (h : ∀ p ∈ adj, 0 ≤ p.2) :
    ∀ p ∈ adj_rain r adj, 0 ≤ p.2 := by
  rw [adj_rain]
  split
  · apply setKey_nonneg _ _ _ h
    have := getD_nonneg adj "rainfall_intensity" 0.2 h (by norm_num)
    have h4 : (0:ℚ) ≤ 0.4 := by norm_num
    exact le_min (by nlinarith) h4
  · exact h

lemma adj_flood_nonneg (r : ℚ) (adj : AttrMap) (h : ∀ p ∈ adj, 0 ≤ p.2) :
    ∀ p ∈ adj_flood r adj, 0 ≤ p.2 := by
  rw [adj_flood]
  split
  · apply setKey_nonneg _ _ _ h
    have := getD_nonneg adj "flood_frequency" 0.15 h (by norm_num)
    exact le_min (by nlinarith) (by norm_num)
  · split
    · apply setKey_nonneg _ _ _ h
      have h5 : (0:ℚ) ≤ 0.05 := by norm_num
      exact le_trans h5 (le_max_right _ _)
    · exact h

lemma adj_dist_nonneg (d r : ℚ) (adj : AttrMap) (h : ∀ p ∈ adj, 0 ≤ p.2) :
    ∀ p ∈ adj_dist d r adj, 0 ≤ p.2 := by
  rw [adj_dist]
  have hg := getD_nonneg adj "distance_from_river" 0.18 h (by norm_num)
  split
  · apply setKey_nonneg _ _ _ h
    exact le_min (by nlinarith) (by norm_num)
  · split
    · apply setKey_nonneg _ _ _ h
      exact le_min (by nlinarith) (by norm_num)
    · exact h

lemma adj_elev_nonneg (b : Bool) (adj : AttrMap) (h : ∀ p ∈ adj, 0 ≤ p.2) :
    ∀ p ∈ adj_elev b adj, 0 ≤ p.2 := by
  rw [adj_elev]
  split
  · apply setKey_nonneg _ _ _ h
    have := getD_nonneg adj "elevation_category" 0.16 h (by norm_num)
    exact le_min (by nlinarith) (by norm_num)
  · exact h

lemma adj_soil_nonneg (b : Bool) (adj : AttrMap) (h : ∀ p ∈ adj, 0 ≤ p.2) :
    ∀ p ∈ adj_soil b adj, 0 ≤ p.2 := by
  rw [adj_soil]
  split
  · apply setKey_nonneg _ _ _ h
    have := getD_nonneg adj "soil_type" 0.25 h (by norm_num)
    exact le_min (by nlinarith) (by norm_num)
  · exact h

lemma region_adjust_raw_nonneg (base : AttrMap)
    (rainfall rain_norm flood flood_norm dist dist_norm : ℚ)
    (elev_diff soil_diff : Bool) (hb : ∀ p ∈ base, 0 ≤ p.2) :
    ∀ p ∈ region_adjust_raw base rainfall rain_norm flood flood_norm
      dist dist_norm elev_diff soil_diff, 0 ≤ p.2 := by
  rw [region_adjust_raw]
  apply adj_soil_nonneg
  apply adj_elev_nonneg
  apply adj_dist_nonneg
  apply adj_flood_nonneg
  apply adj_rain_nonneg
  exact hb

lemma region_adjust_core_sum (base : AttrMap)
    (rainfall rain_norm flood flood_norm dist dist_norm : ℚ)
    (elev_diff soil_diff : Bool)
    (h : 0 < mapSum (region_adjust_raw base rainfall rain_norm flood
      flood_norm dist dist_norm elev_diff soil_diff)) :
    mapSum (region_adjust_core base rainfall rain_norm flood flood_norm
      dist dist_norm elev_diff soil_diff) = 1 := by
  rw [region_adjust_core]
  simp only [if_pos h]
  rw [mapSum_map_div, div_self (ne_of_gt h)]

lemma region_adjust_core_nonneg (base : AttrMap)
    (rainfall rain_norm flood flood_norm dist dist_norm : ℚ)
    (elev_diff soil_diff : Bool) (hb : ∀ p ∈ base, 0 ≤ p.2) :
    ∀ p ∈ region_adjust_core base rainfall rain_norm flood flood_norm
      dist dist_norm elev_diff soil_diff, 0 ≤ p.2 := by
  rw [region_adjust_core]
  have hraw := region_adjust_raw_nonneg base rainfall rain_norm flood
    flood_norm dist dist_norm elev_diff soil_diff hb
  split
  next hpos =>
    intro p hp
    simp only [List.mem_map] at hp
    obtain ⟨q, hq, rfl⟩ := hp
    exact div_nonneg (hraw q hq) (le_of_lt hpos)
  next => exact hraw

/-! ### Risk postprocessor (`_postprocess`, app.py lines 691-709) -/

/-- Python `str.lower()` for the ASCII labels used by the model. -/
def str_lower (s : String) : String :=
  String.mk (s.toList.map fun c =>
    if 'A' ≤ c ∧ c ≤ 'Z' then Char.ofNat (c.toNat + 32) else c)

/-- Demotion note of `_postprocess` rule 1. -/
def demote_note : String :=
  "Adjusted from High to Medium because of low recent rainfall and high elevation."

/-- Promotion note of `_postprocess` rule 2. -/
def promote_note : String :=
  "Upgraded to High due to heavy rain, frequent flooding and proximity to river."

/-- `_postprocess(pred, confidence, row)`: rule 1 (demotion) first, then
rule 2 (promotion), else pass-through with a null note.  The row's
numeric fields are floats in the pipeline, so the guarded `float(...)`
conversions cannot raise. -/
def _postprocess (pred : String) (confidence : ℚ) (row : Row) :
    String × ℚ × Option String :=
  let rain := row.rainfall_intensity
  let elev := row.elevation_category
  let flood := row.flood_frequency
  let dist := row.distance_from_river
  if str_lower pred = "high" ∧ rain < 20 ∧ elev = "high" ∧ confidence < 0.95 then
    ("Medium", min (confidence + 0.05) 0.95, some demote_note)
  else if str_lower pred ≠ "high" ∧ rain ≥ 120 ∧ flood ≥ 3 ∧ dist ≤ 1.5 then
    ("High", min (max confidence 0.6 + 0.05) 0.99, some promote_note)
  else
    (pred, confidence, none)

/-! ### Category buckets (app.py lines 463-491) -/

/-- `_elevation_category_from_m` (app.py lines 463-470). -/
def _elevation_category_from_m (elev_m : Option ℚ) : Option String :=
  match elev_m with
  | none => none
  | some e => if e < 50 then some "low" else if e < 300 then some "mid" else some "high"

/-- `_rainfall_category_from_mm` (app.py lines 473-491). -/
def _rainfall_category_from_mm (mm : Option ℚ) : Option String :=
  match mm with
  | none => none
  | some v =>
    if v < 20 then some "Light"
    else if v ≤ 100 then some "Moderate"
    else some "Heavy"

/-! ### Region-rule lookup (`_lookup_region_rule`, app.py lines 402-410) -/

/-- Bounding-box containment with inclusive comparisons on all four
edges, exactly as in the lookup loop's condition. -/
def contains_point (r : RegionRule) (lat lon : ℚ) : Bool :=
  decide (r.min_lat ≤ lat ∧ lat ≤ r.max_lat ∧ r.min_lon ≤ lon ∧ lon ≤ r.max_lon)

/-- `_lookup_region_rule`: scan the ordered rule list and return the
first rule whose box contains the point, `None` when no box does. -/
def _lookup_region_rule (rules : List RegionRule) (lat lon : ℚ) :
    Option RegionRule :=
  rules.find? fun r => contains_point r lat lon

/-! ### Feature resolution from a coordinate
(`_generate_features_from_location`, app.py lines 494-580)

The two network fetches are modelled by their outcomes
(`fetched_rainfall`, `fetched_elev_m : Option ℚ`; `none` = fetch failed
or returned no value), and the region-rule lookup by its result.  Rules
are complete RegionRule records, so every `rule.get(field)` is the
field's value. -/

/-- `_generate_features_from_location` reduced to its data flow: for
each feature, live measurement, then matched rule value, then the
hardcoded default. -/
def _generate_features_from_location (fetched_rainfall : Option ℚ)
    (fetched_elev_m : Option ℚ) (rule : Option RegionRule) : Row :=
  let rainfall_category := _rainfall_category_from_mm fetched_rainfall
  let elev_cat0 := _elevation_category_from_m fetched_elev_m
  let rainfall_intensity : ℚ :=
    match fetched_rainfall with
    | some v => v
    | none =>
      match rule with
      | some r => r.rainfall_intensity
      | none => 50
  let elev_cat : String :=
    match elev_cat0 with
    | some c => c
    | none =>
      match rule with
      | some r => r.elevation_category
      | none => "mid"
  let flood_freq : ℚ :=
    match rule with
    | some r => r.flood_frequency
    | none => 1
  let soil_type : String :=
    match rule with
    | some r => r.soil_type
    | none => "silt"
  let distance_from_river : ℚ :=
    match rule with
    | some r => r.distance_from_river
    | none => 2
  ⟨soil_type, flood_freq, rainfall_intensity, elev_cat,
    distance_from_river, rainfall_category⟩

/-! ### Request routing of `predict_v1` (app.py lines 611-641) -/

/-- A parsed JSON request body; `none` models an absent (or null)
field.  Coordinates are taken after successful `float(...)` parsing. -/
structure Request where
  latitude : Option ℚ
  longitude : Option ℚ
  soil_type : Option String
  flood_frequency : Option ℚ
  rainfall_intensity : Option ℚ
  elevation_category : Option String
  distance_from_river : Option ℚ
deriving DecidableEq

/-- Outcome of the branching at the top of `predict_v1`: the coordinate
path, the manual path with its constructed row, or a 400 missing-field
rejection. -/
inductive PredictRoute where
  | coord (lat lon : ℚ)
  | manual (row : Row)
  | missing_field (k : String)
deriving DecidableEq

/-- The routing logic of `predict_v1`: the coordinate path is taken iff
both `latitude` and `longitude` are non-null; otherwise the four
required manual fields are checked in source order, and the manual row
is built with `float(data.get('distance_from_river', 0.0))`. -/
def predict_v1_route (d : Request) : PredictRoute :=
  match d.latitude, d.longitude with
  | some lat, some lon => .coord lat lon
  | _, _ =>
    match d.soil_type with
    | none => .missing_field "soil_type"
    | some st =>
      match d.flood_frequency with
      | none => .missing_field "flood_frequency"
      | some ff =>
        match d.rainfall_intensity with
        | none => .missing_field "rainfall_intensity"
        | some ri =>
          match d.elevation_category with
          | none => .missing_field "elevation_category"
          | some ec =>
            .manual ⟨st, ff, ri, ec, d.distance_from_river.getD 0, none⟩

/-! ### Attribution cascade (`_local_feature_importance`, app.py
lines 111-185)

The SHAP tier needs an external library and is skipped (as when
`shap` is not importable); the cascade below starts at the permutation
tier, taking the permutation result and the classifier's built-in
per-column importances (absent when the classifier has none) as
inputs. -/

/-- The tier selection of `_local_feature_importance` after the SHAP
attempt: use the permutation result only when it is non-empty and its
total exceeds `1e-6`; otherwise normalize and collapse the built-in
importances; with neither, return the empty map. -/
def _local_feature_importance_cascade (perm_imps : AttrMap)
    (builtin : Option AttrMap) : AttrMap :=
  let perm_total := mapSum perm_imps
  if perm_imps ≠ [] ∧ perm_total > 1 / 1000000 then
    _collapse_feature_importances perm_imps
  else
    match builtin with
    | some imps => _collapse_feature_importances (normalize_py imps)
    | none => []

/-- All six conversions failing at once make `conv6` fail. -/
lemma conv6_eq_none (a b c d e f : Option ℚ)
    (h : a = none ∨ b = none ∨ c = none ∨ d = none ∨ e = none ∨ f = none) :
    conv6 a b c d e f = none := by
  cases a <;> cases b <;> cases c <;> cases d <;> cases e <;> cases f <;>
    simp [conv6] at h ⊢

/-! ## Claim theorems -/

/-- Claim C6: the rainfall bucketing function maps mm < 20 to `Light`,
20 ≤ mm ≤ 100 to `Moderate`, mm > 100 to `Heavy`; in particular
19.9 → Light, 20.0 → Moderate, 100.0 → Moderate, 100.1 → Heavy; and a
null input maps to no category. -/
theorem C6_rainfall_buckets (mm : ℚ) :
    (mm < 20 → _rainfall_category_from_mm (some mm) = some "Light")
    ∧ (20 ≤ mm → mm ≤ 100 → _rainfall_category_from_mm (some mm) = some "Moderate")
    ∧ (100 < mm → _rainfall_category_from_mm (some mm) = some "Heavy")
    ∧ _rainfall_category_from_mm none = none
    ∧ _rainfall_category_from_mm (some 19.9) = some "Light"
    ∧ _rainfall_category_from_mm (some 20) = some "Moderate"
    ∧ _rainfall_category_from_mm (some 100) = some "Moderate"
    ∧ _rainfall_category_from_mm (some 100.1) = some "Heavy" := by
  refine ⟨?_, ?_, ?_, rfl, ?_, ?_, ?_, ?_⟩
  · intro h
    simp [_rainfall_category_from_mm, h]
  · intro h1 h2
    rw [_rainfall_category_from_mm]
    rw [if_neg (not_lt.mpr h1), if_pos h2]
  · intro h
    rw [_rainfall_category_from_mm]
    rw [if_neg (by linarith), if_neg (not_le.mpr h)]
  · norm_num [_rainfall_category_from_mm]
  · norm_num [_rainfall_category_from_mm]
  · norm_num [_rainfall_category_from_mm]
  · norm_num [_rainfall_category_from_mm]

/-- Witness for C6: 19.9 mm is below 20 and is bucketed `Light`. -/
theorem C6_witness :
    (19.9 : ℚ) < 20 ∧ _rainfall_category_from_mm (some 19.9) = some "Light" :=
  ⟨by norm_num, (C6_rainfall_buckets 19.9).1 (by norm_num)⟩

/-- Claim C7: the elevation categorization maps elevation < 50 to `low`,
50 ≤ elevation < 300 to `mid`, elevation ≥ 300 to `high`; in particular
49.9 → low, 50.0 → mid, 299.9 → mid, 300.0 → high; and a null input maps
to no category. -/
theorem C7_elevation_categories (e : ℚ) :
    (e < 50 → _elevation_category_from_m (some e) = some "low")
    ∧ (50 ≤ e → e < 300 → _elevation_category_from_m (some e) = some "mid")
    ∧ (300 ≤ e → _elevation_category_from_m (some e) = some "high")
    ∧ _elevation_category_from_m none = none
    ∧ _elevation_category_from_m (some 49.9) = some "low"
    ∧ _elevation_category_from_m (some 50) = some "mid"
    ∧ _elevation_category_from_m (some 299.9) = some "mid"
    ∧ _elevation_category_from_m (some 300) = some "high" := by
  refine ⟨?_, ?_, ?_, rfl, ?_, ?_, ?_, ?_⟩
  · intro h
    simp [_elevation_category_from_m, h]
  · intro h1 h2
    rw [_elevation_category_from_m]
    rw [if_neg (not_lt.mpr h1), if_pos h2]
  · intro h
    rw [_elevation_category_from_m]
    rw [if_neg (by linarith), if_neg (not_lt.mpr h)]
  · norm_num [_elevation_category_from_m]
  · norm_num [_elevation_category_from_m]
  · norm_num [_elevation_category_from_m]
  · norm_num [_elevation_category_from_m]

/-- Witness for C7: 49.9 m is below 50 and is categorized `low`. -/
theorem C7_witness :
    (49.9 : ℚ) < 50 ∧ _elevation_category_from_m (some 49.9) = some "low" :=
  ⟨by norm_num, (C7_elevation_categories 49.9).1 (by norm_num)⟩

/-- Claim C2: the risk postprocessor applies rule 1 (demote High to
Medium when rainfall < 20, elevation high, confidence < 0.95, with
confidence min(confidence+0.05, 0.95) and the demotion note), otherwise
rule 2 (promote a non-High label to High when rainfall ≥ 120,
flood_frequency ≥ 3, distance_from_river ≤ 1.5, with confidence
min(max(confidence,0.6)+0.05, 0.99) and the promotion note), otherwise
passes label and confidence through with a null note; and on the two
concrete inputs of the claim it yields (Medium, 0.85) and (High, 0.65). -/
theorem C2_postprocess (pred : String) (conf : ℚ) (row : Row) :
    (str_lower pred = "high" ∧ row.rainfall_intensity < 20
        ∧ row.elevation_category = "high" ∧ conf < 0.95 →
      _postprocess pred conf row =
        ("Medium", min (conf + 0.05) 0.95, some demote_note))
    ∧ (str_lower pred ≠ "high" ∧ row.rainfall_intensity ≥ 120
        ∧ row.flood_frequency ≥ 3 ∧ row.distance_from_river ≤ 1.5 →
      _postprocess pred conf row =
        ("High", min (max conf 0.6 + 0.05) 0.99, some promote_note))
    ∧ (¬(str_lower pred = "high" ∧ row.rainfall_intensity < 20
        ∧ row.elevation_category = "high" ∧ conf < 0.95) →
      ¬(str_lower pred ≠ "high" ∧ row.rainfall_intensity ≥ 120
        ∧ row.flood_frequency ≥ 3 ∧ row.distance_from_river ≤ 1.5) →
      _postprocess pred conf row = (pred, conf, none))
    ∧ _postprocess "High" 0.8 ⟨"silt", 0, 10, "high", 2, none⟩ =
        ("Medium", 0.85, some demote_note)
    ∧ _postprocess "Medium" 0.5 ⟨"silt", 4, 150, "mid", 1, none⟩ =
        ("High", 0.65, some promote_note) := by
  refine ⟨?_, ?_, ?_, ?_, ?_⟩
  · intro h
    rw [_postprocess, if_pos h]
  · intro h
    rw [_postprocess, if_neg (fun hc => h.1 hc.1), if_pos h]
  · intro h1 h2
    rw [_postprocess, if_neg h1, if_neg h2]
  · have h1 : str_lower "High" = "high" := by decide
    norm_num [_postprocess, h1]
  · have h1 : str_lower "Medium" = "medium" := by decide
    have h2 : ("medium" : String) ≠ "high" := by decide
    norm_num [_postprocess, h1, h2]

/-- Witness for C2: on the claim's demotion input, rule 1's guard holds
and the postprocessor demotes High to Medium at confidence 0.85. -/
theorem C2_witness :
    (str_lower "High" = "high" ∧ (10 : ℚ) < 20 ∧ "high" = "high" ∧ (0.8 : ℚ) < 0.95)
    ∧ _postprocess "High" 0.8 ⟨"silt", 0, 10, "high", 2, none⟩ =
        ("Medium", min ((0.8 : ℚ) + 0.05) 0.95, some demote_note) := by
  have hg : str_lower "High" = "high" ∧ (10 : ℚ) < 20 ∧ "high" = "high" ∧ (0.8 : ℚ) < 0.95 :=
    ⟨by decide, by norm_num, rfl, by norm_num⟩
  exact ⟨hg, (C2_postprocess "High" 0.8 ⟨"silt", 0, 10, "high", 2, none⟩).1 hg⟩

/-- Claim C4: region-rule lookup returns the first rule in the ordered
list whose bounding box contains the point, with inclusive comparisons
on all four edges, and null when no box contains it; for a point inside
two overlapping boxes, the earlier rule is selected. -/
theorem C4_lookup_first_match (pre post : List RegionRule) (r : RegionRule)
    (lat lon : ℚ)
    (hpre : ∀ x ∈ pre, contains_point x lat lon = false)
    (hr : contains_point r lat lon = true) :
    _lookup_region_rule (pre ++ r :: post) lat lon = some r
    ∧ (∀ rules : List RegionRule,
        (∀ x ∈ rules, contains_point x lat lon = false) →
        _lookup_region_rule rules lat lon = none)
    ∧ (contains_point r lat lon = true ↔
        (r.min_lat ≤ lat ∧ lat ≤ r.max_lat ∧ r.min_lon ≤ lon ∧ lon ≤ r.max_lon)) := by
  refine ⟨?_, ?_, ?_⟩
  · induction pre with
    | nil => simp [_lookup_region_rule, List.find?_cons_of_pos, hr]
    | cons a t ih =>
      have ha : contains_point a lat lon = false := hpre a (by simp)
      have ht : ∀ x ∈ t, contains_point x lat lon = false :=
        fun x hx => hpre x (List.mem_cons_of_mem a hx)
      rw [List.cons_append, _lookup_region_rule, List.find?_cons_of_neg]
      · exact ih ht
      · simp [ha]
  · intro rules hrules
    rw [_lookup_region_rule, List.find?_eq_none]
    intro x hx
    simp [hrules x hx]
  · simp [contains_point]

/-- Witness for C4: a point inside two overlapping boxes selects the
rule appearing earlier in the list. -/
theorem C4_witness :
    (∀ x ∈ ([] : List RegionRule), contains_point x 5 5 = false)
    ∧ contains_point ⟨"A", 0, 10, 0, 10, "clay", 100, 2, "low", 1⟩ 5 5 = true
    ∧ contains_point ⟨"B", 0, 10, 0, 10, "silt", 50, 1, "mid", 2⟩ 5 5 = true
    ∧ _lookup_region_rule
        [⟨"A", 0, 10, 0, 10, "clay", 100, 2, "low", 1⟩,
         ⟨"B", 0, 10, 0, 10, "silt", 50, 1, "mid", 2⟩] 5 5 =
        some ⟨"A", 0, 10, 0, 10, "clay", 100, 2, "low", 1⟩ := by
  have hA : contains_point ⟨"A", 0, 10, 0, 10, "clay", 100, 2, "low", 1⟩ 5 5 = true := by
    simp [contains_point]
    norm_num
  have hB : contains_point ⟨"B", 0, 10, 0, 10, "silt", 50, 1, "mid", 2⟩ 5 5 = true := by
    simp [contains_point]
    norm_num
  refine ⟨by simp, hA, hB, ?_⟩
  exact (C4_lookup_first_match []
    [⟨"B", 0, 10, 0, 10, "silt", 50, 1, "mid", 2⟩]
    ⟨"A", 0, 10, 0, 10, "clay", 100, 2, "low", 1⟩ 5 5 (by simp) hA).1

/-- Claim C3: feature resolution from a coordinate follows the order
live measurement → matched region rule value → hardcoded default
(rainfall 50 mm, elevation mid, flood_frequency 1.0, soil_type silt,
distance_from_river 2.0): with both fetches empty and no matching rule,
every resolved feature is its default; with a matching rule (all fields
supplied) and empty fetches, every resolved feature is the rule's value;
and a fetched live value always wins for rainfall and elevation. -/
theorem C3_feature_resolution (r : RegionRule) (fr fe : Option ℚ)
    (rl : Option RegionRule) :
    _generate_features_from_location none none none =
      ⟨"silt", 1, 50, "mid", 2, none⟩
    ∧ _generate_features_from_location none none (some r) =
      ⟨r.soil_type, r.flood_frequency, r.rainfall_intensity,
        r.elevation_category, r.distance_from_river, none⟩
    ∧ (∀ mm : ℚ, fr = some mm →
        (_generate_features_from_location fr fe rl).rainfall_intensity = mm)
    ∧ (∀ em : ℚ, fe = some em →
        (_generate_features_from_location fr fe rl).elevation_category =
          (_elevation_category_from_m (some em)).getD "mid") := by
  refine ⟨rfl, rfl, ?_, ?_⟩
  · intro mm h
    subst h
    simp [_generate_features_from_location]
  · intro em h
    subst h
    simp only [_generate_features_from_location, _elevation_category_from_m]
    split_ifs <;> simp

/-- Witness for C3: with rainfall fetched as 200 mm and elevation
fetched as 10 m, the resolved row uses the live values regardless of
the rule tier. -/
theorem C3_witness :
    (some (200 : ℚ) = some (200 : ℚ))
    ∧ (_generate_features_from_location (some 200) (some 10)
        (some ⟨"R", 0, 10, 0, 10, "clay", 50, 5, "high", 0.3⟩)).rainfall_intensity = 200
    ∧ (_generate_features_from_location (some 200) (some 10)
        (some ⟨"R", 0, 10, 0, 10, "clay", 50, 5, "high", 0.3⟩)).elevation_category =
        (_elevation_category_from_m (some 10)).getD "mid" := by
  have h := C3_feature_resolution ⟨"R", 0, 10, 0, 10, "clay", 50, 5, "high", 0.3⟩
    (some 200) (some 10) (some ⟨"R", 0, 10, 0, 10, "clay", 50, 5, "high", 0.3⟩)
  exact ⟨rfl, h.2.2.1 200 rfl, h.2.2.2 10 rfl⟩

/-- Claim C9: `predict_v1` takes the coordinate-resolution path exactly
when both latitude and longitude are non-null; any other request —
including one supplying exactly one coordinate — is handled as a
manual-features request, which is accepted only when soil_type,
flood_frequency, rainfall_intensity and elevation_category are all
present, and otherwise rejected with a missing-field error. -/
theorem C9_routing (d : Request) :
    ((∃ lat lon, predict_v1_route d = .coord lat lon) ↔
      (d.latitude.isSome ∧ d.longitude.isSome))
    ∧ (¬(d.latitude.isSome ∧ d.longitude.isSome) →
        (((∃ row, predict_v1_route d = .manual row) ↔
          (d.soil_type.isSome ∧ d.flood_frequency.isSome
            ∧ d.rainfall_intensity.isSome ∧ d.elevation_category.isSome))
        ∧ (¬(d.soil_type.isSome ∧ d.flood_frequency.isSome
            ∧ d.rainfall_intensity.isSome ∧ d.elevation_category.isSome) →
            ∃ k, predict_v1_route d = .missing_field k))) := by
  obtain ⟨la, lo, st, ff, ri, ec, dr⟩ := d
  cases la <;> cases lo <;> cases st <;> cases ff <;> cases ri <;> cases ec <;>
    simp [predict_v1_route]

/-- Witness for C9: a request with only a latitude (longitude null) and
no manual fields is routed to a missing-field rejection, not the
coordinate path. -/
theorem C9_witness :
    ¬((some (20 : ℚ)).isSome ∧ (none : Option ℚ).isSome)
    ∧ (∃ k, predict_v1_route ⟨some 20, none, none, none, none, none, none⟩ =
        .missing_field k) := by
  have hno : ¬((some (20 : ℚ)).isSome ∧ (none : Option ℚ).isSome) := by simp
  refine ⟨hno, ?_⟩
  exact ((C9_routing ⟨some 20, none, none, none, none, none, none⟩).2 hno).2 (by simp)

/-- Claim C10: a manual-features request that omits distance_from_river
is not rejected and does not get the resolver default 2.0: the row is
built with distance_from_river = 0.0, and that value satisfies the
postprocessor's distance ≤ 1.5 promotion condition, so a non-High
prediction with rainfall ≥ 120 and flood_frequency ≥ 3 is promoted. -/
theorem C10_distance_default (d : Request) (st ec : String) (ff ri : ℚ)
    (hlat : d.latitude = none)
    (hst : d.soil_type = some st) (hff : d.flood_frequency = some ff)
    (hri : d.rainfall_intensity = some ri) (hec : d.elevation_category = some ec)
    (hdist : d.distance_from_river = none) :
    predict_v1_route d = .manual ⟨st, ff, ri, ec, 0, none⟩
    ∧ (∀ pred conf, str_lower pred ≠ "high" → ri ≥ 120 → ff ≥ 3 →
        _postprocess pred conf ⟨st, ff, ri, ec, 0, none⟩ =
          ("High", min (max conf 0.6 + 0.05) 0.99, some promote_note)) := by
  constructor
  · obtain ⟨la, lo, st2, ff2, ri2, ec2, dr⟩ := d
    simp only at hlat hst hff hri hec hdist
    subst hlat hst hff hri hec hdist
    simp [predict_v1_route]
  · intro pred conf h1 h2 h3
    rw [_postprocess, if_neg (fun hc => h1 hc.1)]
    rw [if_pos ⟨h1, h2, h3, by norm_num⟩]

/-- Witness for C10: a manual request (latitude null, longitude given)
without distance_from_river builds a row with distance 0, and a Medium
prediction on it with heavy rain and frequent flooding is promoted. -/
theorem C10_witness :
    ((⟨none, some 80, some "clay", some 4, some 150, some "low", none⟩ :
        Request).latitude = none)
    ∧ predict_v1_route ⟨none, some 80, some "clay", some 4, some 150, some "low", none⟩ =
        .manual ⟨"clay", 4, 150, "low", 0, none⟩
    ∧ _postprocess "Medium" 0.5 ⟨"clay", 4, 150, "low", 0, none⟩ =
        ("High", min (max 0.5 0.6 + 0.05) 0.99, some promote_note) := by
  have h := C10_distance_default
    ⟨none, some 80, some "clay", some 4, some 150, some "low", none⟩
    "clay" "low" 4 150 rfl rfl rfl rfl rfl rfl
  exact ⟨rfl, h.1, h.2 "Medium" 0.5 (by decide) (by norm_num) (by norm_num)⟩

/-- Claim C8: in the attribution cascade, when the permutation tier's
total weight does not exceed the 1e-6 negligibility threshold the tier
is treated as failed and the engine falls to the static built-in
importance tier (the classifier's per-column importances, normalized to
sum 1 and collapsed); the permutation result is used only when it is
non-empty and its total exceeds the threshold. -/
theorem C8_cascade (perm imps : AttrMap)
    (hneg : mapSum perm ≤ 1 / 1000000) :
    _local_feature_importance_cascade perm (some imps) =
      _collapse_feature_importances (normalize_py imps)
    ∧ (∀ p : AttrMap, p ≠ [] → mapSum p > 1 / 1000000 →
        _local_feature_importance_cascade p (some imps) =
          _collapse_feature_importances p) := by
  constructor
  · rw [_local_feature_importance_cascade]
    rw [if_neg (fun hc => absurd hc.2 (not_lt.mpr hneg))]
  · intro p h1 h2
    rw [_local_feature_importance_cascade, if_pos ⟨h1, h2⟩]

/-- Witness for C8: an all-zero (empty) permutation result has
negligible total, so the cascade returns the normalized collapsed
built-in importances. -/
theorem C8_witness :
    mapSum ([] : AttrMap) ≤ 1 / 1000000
    ∧ _local_feature_importance_cascade [] (some [("soil_type", 1)]) =
      _collapse_feature_importances (normalize_py [("soil_type", 1)]) :=
  ⟨by norm_num [mapSum], (C8_cascade [] [("soil_type", 1)] (by norm_num [mapSum])).1⟩

/-- Claim C1 (counterexample): the collapse stage applied to the
non-empty all-zero expanded importance map
[("num__rainfall_intensity", 0)] — the shape the SHAP and built-in
tiers produce when every raw score is zero, which the `or 1.0` guard in
the source deliberately lets through — returns a non-empty
AttributionMap whose weights sum to 0, not 1 within 1e-6. -/
theorem C1_counterexample :
    _collapse_feature_importances [("num__rainfall_intensity", 0)] =
      [("rainfall_intensity", 0)]
    ∧ _collapse_feature_importances [("num__rainfall_intensity", 0)] ≠ []
    ∧ ¬(|mapSum (_collapse_feature_importances
        [("num__rainfall_intensity", 0)]) - 1| ≤ 1 / 1000000) := by
  have h1 : canonical_of "num__rainfall_intensity" = "rainfall_intensity" := by decide
  have he : _collapse_feature_importances [("num__rainfall_intensity", 0)] =
      [("rainfall_intensity", 0)] := by
    norm_num [_collapse_feature_importances, collapse_step, h1, normalize_py,
      mapSum, setKey, getD]
  refine ⟨he, ?_, ?_⟩
  · rw [he]
    simp
  · rw [he]
    norm_num [mapSum]

/-- Claim C1 (amended): whenever a stage's pre-normalization total is
positive — for the collapse of expanded-column importances (through
which the permutation and built-in tiers also pass) a positive input
total, for the region adjustment a positive total of the scaled map —
the produced AttributionMap has non-negative weights summing exactly to
1 (hence within 1e-6); the shared `total or 1.0` normalization likewise
yields sum 1 on any map with positive total. -/
theorem C1_normalization (m b : AttrMap) (row : Row) (r : RegionRule)
    (hm : ∀ p ∈ m, 0 ≤ p.2) (hmpos : 0 < mapSum m)
    (hb : ∀ p ∈ b, 0 ≤ p.2)
    (hbpos : 0 < mapSum (region_adjust_raw_of b row r)) :
    ((∀ p ∈ _collapse_feature_importances m, 0 ≤ p.2)
      ∧ mapSum (_collapse_feature_importances m) = 1)
    ∧ ((∀ p ∈ _compute_region_adjusted_importances b row (some r), 0 ≤ p.2)
      ∧ mapSum (_compute_region_adjusted_importances b row (some r)) = 1)
    ∧ (∀ q : AttrMap, 0 < mapSum q → mapSum (normalize_py q) = 1) := by
  refine ⟨⟨?_, ?_⟩, ⟨?_, ?_⟩, ?_⟩
  · apply normalize_py_nonneg
    · exact collapse_fold_nonneg m [] (by simp) hm
    · rw [collapse_fold_sum]
      simpa using le_of_lt hmpos
  · apply normalize_py_sum
    rw [collapse_fold_sum]
    simpa using ne_of_gt hmpos
  · rw [_compute_region_adjusted_importances]
    exact region_adjust_core_nonneg b _ _ _ _ _ _ _ _ hb
  · rw [_compute_region_adjusted_importances]
    exact region_adjust_core_sum b _ _ _ _ _ _ _ _ hbpos
  · intro q hq
    exact normalize_py_sum q (ne_of_gt hq)

/-- Witness for C1: a concrete positive expanded map and a concrete
base map, row and rule with positive scaled total, on which both the
collapse stage and the region adjustment produce maps summing to 1. -/
theorem C1_witness :
    (0 : ℚ) < mapSum [("num__rainfall_intensity", (1 : ℚ))]
    ∧ (0 : ℚ) < mapSum (region_adjust_raw_of [("soil_type", 1)]
        ⟨"silt", 1, 50, "mid", 2, none⟩ ⟨"r", 0, 1, 0, 1, "silt", 50, 1, "mid", 2⟩)
    ∧ mapSum (_collapse_feature_importances [("num__rainfall_intensity", 1)]) = 1
    ∧ mapSum (_compute_region_adjusted_importances [("soil_type", 1)]
        ⟨"silt", 1, 50, "mid", 2, none⟩
        (some ⟨"r", 0, 1, 0, 1, "silt", 50, 1, "mid", 2⟩)) = 1 := by
  have hs1 : ("soil_type" : String) ≠ "flood_frequency" := by decide
  have hraw : (0 : ℚ) < mapSum (region_adjust_raw_of [("soil_type", 1)]
      ⟨"silt", 1, 50, "mid", 2, none⟩ ⟨"r", 0, 1, 0, 1, "silt", 50, 1, "mid", 2⟩) := by
    norm_num [region_adjust_raw_of, region_adjust_raw, adj_rain, adj_flood,
      adj_dist, adj_elev, adj_soil, setKey, getD, mapSum, hs1]
  have h := C1_normalization [("num__rainfall_intensity", 1)] [("soil_type", 1)]
    ⟨"silt", 1, 50, "mid", 2, none⟩ ⟨"r", 0, 1, 0, 1, "silt", 50, 1, "mid", 2⟩
    (by norm_num) (by norm_num [mapSum]) (by norm_num) hraw
  exact ⟨by norm_num [mapSum], hraw, h.1.2, h.2.1.2⟩

/-- Claim C5 (counterexample): with every key missing from the
attribution map (the empty map) and a matched rule, the per-feature
arithmetic does not bail out: the missing keys are given default
pre-adjustment weights and a modified, renormalized map is returned
instead of the unmodified input. -/
theorem C5_counterexample :
    _compute_region_adjusted_importances [] ⟨"silt", 1, 200, "mid", 2, none⟩
        (some ⟨"r", 0, 1, 0, 1, "silt", 50, 1, "mid", 2⟩) =
      [("rainfall_intensity", 7 / 10), ("flood_frequency", 3 / 10)]
    ∧ _compute_region_adjusted_importances [] ⟨"silt", 1, 200, "mid", 2, none⟩
        (some ⟨"r", 0, 1, 0, 1, "silt", 50, 1, "mid", 2⟩) ≠ ([] : AttrMap) := by
  have h1 : ("rainfall_intensity" : String) ≠ "flood_frequency" := by decide
  have he : _compute_region_adjusted_importances [] ⟨"silt", 1, 200, "mid", 2, none⟩
      (some ⟨"r", 0, 1, 0, 1, "silt", 50, 1, "mid", 2⟩) =
      [("rainfall_intensity", 7 / 10), ("flood_frequency", 3 / 10)] := by
    norm_num [_compute_region_adjusted_importances, region_adjust_core,
      region_adjust_raw, adj_rain, adj_flood, adj_dist, adj_elev, adj_soil,
      setKey, getD, mapSum, h1]
  exact ⟨he, by rw [he]; simp⟩

/-- Claim C5 (amended): the region adjuster returns its input map
unchanged when no rule matched, and when the numeric conversion of a
feature or rule value fails (all six conversions precede the first
mutation of the working copy); a key missing from the attribution map
is not an arithmetic failure — the scaling proceeds with default
pre-adjustment weights for that feature. -/
theorem C5_error_handling (base : AttrMap) (row : Row) (rrow : RawRow)
    (rrule : RawRule) :
    _compute_region_adjusted_importances base row none = base
    ∧ _compute_region_adjusted_importances_checked base rrow none = base
    ∧ (pyFloat (rrow.rainfall_intensity.getD (.num 0)) = none
        ∨ pyFloat (rrule.rainfall_intensity.getD (.num 50)) = none
        ∨ pyFloat (rrow.flood_frequency.getD (.num 1)) = none
        ∨ pyFloat (rrule.flood_frequency.getD (.num 1)) = none
        ∨ pyFloat (rrow.distance_from_river.getD (.num 2)) = none
        ∨ pyFloat (rrule.distance_from_river.getD (.num 2)) = none →
        _compute_region_adjusted_importances_checked base rrow (some rrule) = base) := by
  refine ⟨rfl, rfl, ?_⟩
  intro h
  simp only [_compute_region_adjusted_importances_checked]
  rw [conv6_eq_none _ _ _ _ _ _ h]

/-- Witness for C5: a row whose rainfall value is the non-numeric
string "wet" makes the conversion fail, and the checked adjuster
returns the input map untouched. -/
theorem C5_witness :
    pyFloat ((some (PyVal.str "wet")).getD (.num 0)) = none
    ∧ _compute_region_adjusted_importances_checked [("soil_type", 1)]
        ⟨some (.str "clay"), some (.num 1), some (.str "wet"),
          some (.str "mid"), some (.num 2)⟩
        (some ⟨some (.str "clay"), some (.num 50), some (.num 1),
          some (.str "mid"), some (.num 2)⟩) = [("soil_type", 1)] := by
  refine ⟨rfl, ?_⟩
  exact (C5_error_handling [("soil_type", 1)] ⟨"silt", 1, 50, "mid", 2, none⟩
    ⟨some (.str "clay"), some (.num 1), some (.str "wet"),
      some (.str "mid"), some (.num 2)⟩
    ⟨some (.str "clay"), some (.num 50), some (.num 1),
      some (.str "mid"), some (.num 2)⟩).2.2 (Or.inl rfl)

end SoilSafe
